import Mathlib

/-!
# Big-purchase nudger extension

A shallow embedding of the three scripts of the browser extension

* `content.js`: the capturing click listener, `extractProductData`,
  `showInPageNotification` and its OK-button listener,
* `background.js`: the identity bootstrap and the `onMessage` relay,

followed by the properties of the specification that are settled against them.

Conventions of the embedding.

* JavaScript strings are `String`; character-level built-ins (`trim`, `includes`,
  `replace(/[^0-9.]/g, '')`, `parseFloat`) work on the list of characters.
* A JavaScript number that `parseFloat` can return is `none` (NaN) or `some x` with
  `x : JSNum`.  The binary64 rounding of the exact decimal value is a parameter
  `rnd : ℚ → JSNum` of the environment, so every statement holds for whatever rounding the
  engine performs.
* A plain object used as a string map (`originalFormInputs`, `localStorage`) is an
  association list in insertion order; assignment overwrites in place, the key `__proto__`
  is never created by assignment, and `for`-`in` visits array-index keys first.
* A form element answers `form.x` with the control or image whose `id` or `name` is `x` before
  its own property `x`; the reads `parentForm.action`, `.method`, `.elements` and the calls
  `tempForm.appendChild`, `tempForm.submit` follow that rule.  The past-names map of a form
  is taken to be empty.
* Side effects are collected in a trace of `Effect`s; the DOM is read through explicit
  arguments (`Page`, `Element`).
-/

namespace Aura

/-! ## JavaScript values -/

/-- A JavaScript number other than NaN that `parseFloat` can produce from a string of digits
and dots: a finite value or `Infinity`. -/
inductive JSNum where
  | fin (q : ℚ)
  | inf
  deriving DecidableEq

/-- The comparison `x >= c` of a number with a finite constant. -/
def JSNum.ge (x : JSNum) (c : ℚ) : Bool :=
  match x with
  | .fin q => decide (c ≤ q)
  | .inf => true

/-- A plain object whose values are strings, in insertion order. -/
abbrev JSObj := List (String × String)

/-- Property assignment `o[k] = v`: overwrite an existing key in place, else append. -/
def objSet {β : Type} : List (String × β) → String → β → List (String × β)
  | [], k, v => [(k, v)]
  | (k', v') :: o, k, v => if k' = k then (k', v) :: o else (k', v') :: objSet o k v

/-- Property read `o[k]`; `none` when the object has no such key. -/
def objGet {β : Type} : List (String × β) → String → Option β
  | [], _ => none
  | (k', v) :: o, k => if k' = k then some v else objGet o k

/-- The own keys of an object. -/
def objKeys {β : Type} (o : List (String × β)) : List String := o.map Prod.fst

/-! ## String built-ins -/

/-- Code points removed by `String.prototype.trim` (WhiteSpace and LineTerminator). -/
def isJSWhitespace (c : Char) : Bool :=
  let n := c.toNat
  n == 0x09 || n == 0x0A || n == 0x0B || n == 0x0C || n == 0x0D || n == 0x20 || n == 0xA0 ||
  n == 0x1680 || (0x2000 ≤ n && n ≤ 0x200A) || n == 0x2028 || n == 0x2029 || n == 0x202F ||
  n == 0x205F || n == 0x3000 || n == 0xFEFF

/-- Remove leading and trailing white space from a list of characters. -/
def trimChars (s : List Char) : List Char :=
  ((s.dropWhile isJSWhitespace).reverse.dropWhile isJSWhitespace).reverse

/-- The built-in `s.trim()`. -/
def jsTrim (s : String) : String := String.mk (trimChars s.data)

/-- Does `s` begin with the characters `p`? -/
def startsWith : List Char → List Char → Bool
  | _, [] => true
  | [], _ :: _ => false
  | c :: s, d :: p => c == d && startsWith s p

/-- Does `p` occur as a contiguous run inside `s`? -/
def includesChars : List Char → List Char → Bool
  | [], p => p.isEmpty
  | c :: s, p => startsWith (c :: s) p || includesChars s p

/-- The built-in `s.includes(sub)`. -/
def includes (s sub : String) : Bool := includesChars s.data sub.data

/-- A character kept by `replace(/[^0-9.]/g, '')`. -/
def isPriceChar (c : Char) : Bool := c.isDigit || c == '.'

/-- The call `text.replace(/[^0-9.]/g, '')` of `content.js` lines 158 and 161. -/
def stripNonPrice (s : String) : String := String.mk (s.data.filter isPriceChar)

/-- The natural number written by a list of decimal digits. -/
def digitsValue (ds : List Char) : Nat :=
  ds.foldl (fun acc c => 10 * acc + (c.toNat - 48)) 0

/-- The built-in `parseFloat` on the list of characters of a string made of digits and dots
(the only strings `content.js` passes to it): the longest leading decimal literal, `none`
(NaN) when there is none.  Any other character ends the literal. -/
def parseFloatChars (rnd : ℚ → JSNum) (s : List Char) : Option JSNum :=
  let intPart := s.takeWhile Char.isDigit
  match s.dropWhile Char.isDigit with
  | '.' :: more =>
    let frac := more.takeWhile Char.isDigit
    if intPart.isEmpty && frac.isEmpty then none
    else some (rnd ((digitsValue (intPart ++ frac) : ℚ) / (10 : ℚ) ^ frac.length))
  | _ => if intPart.isEmpty then none else some (rnd (digitsValue intPart : ℚ))

/-- The built-in `parseFloat(s)` on digit/dot strings. -/
def parseFloat (rnd : ℚ → JSNum) (s : String) : Option JSNum := parseFloatChars rnd s.data

/-! ## Page-context identity (`content.js` lines 194-201) -/

/-- The value of `localStorage.getItem`. -/
def getItem (storage : JSObj) (key : String) : Option String := objGet storage key

/-- The effect of `localStorage.setItem`. -/
def setItem (storage : JSObj) (key value : String) : JSObj := objSet storage key value

/-- Lines 194-201: read `user_id`; when it is missing or empty take a fresh
`crypto.randomUUID()` (the argument `uuid`) and store it.  Returns the identifier and the
storage afterwards. -/
def resolveUserId (storage : JSObj) (uuid : String) : String × JSObj :=
  match getItem storage "user_id" with
  | some id => if id ≠ "" then (id, storage) else (uuid, setItem storage "user_id" uuid)
  | none => (uuid, setItem storage "user_id" uuid)

/-! ## Product extraction (`content.js` lines 121-221) -/

/-- What `extractProductData` reads from the document and the location. -/
structure Page where
  /-- The value of `window.location.href`. -/
  href : String
  /-- The value of `new URL(href).pathname`; `none` when the constructor throws. -/
  pathname : Option String
  /-- The text content of `#productTitle`, when the element exists. -/
  productTitle : Option String
  /-- The text content of `#title`, when the element exists. -/
  title : Option String
  /-- The text content of the first `.a-price-whole`, when one exists. -/
  priceWhole : Option String
  /-- The text content of the first `.a-price .a-offscreen`, when one exists. -/
  priceOffscreen : Option String
  /-- The `src` of `#landingImage`, when the element exists. -/
  landingImage : Option String

/-- The environment of one run of the page script. -/
structure Env where
  /-- Rounding of an exact decimal value to a JavaScript number. -/
  rnd : ℚ → JSNum
  /-- The document and location. -/
  page : Page
  /-- The value `crypto.randomUUID()` would return. -/
  uuid : String
  /-- The value of `new Date().toISOString()`. -/
  now : String

/-- The record built at lines 205-216. -/
structure ProductRecord where
  user_id : String
  source : String
  url : String
  name : String
  price : JSNum
  imageUrl : Option String
  timestamp : String
  eventType : String
  user_consent : Bool
  isHighValue : Bool
  deriving DecidableEq

/-- Lines 123-131 and 139: the path used for classification and the product-page test. -/
def isProductPage (page : Page) : Bool :=
  let urlPathname := match page.pathname with
    | some p => p
    | none => page.href
  includes urlPathname "/dp/" || includes urlPathname "/gp/product/"

/-- Lines 141-152: the product name, `none` while it is still `null`. -/
def findProductName (page : Page) : Option String :=
  if isProductPage page then
    match page.productTitle with
    | some t => some (jsTrim t)
    | none =>
      match page.title with
      | some t => some (jsTrim t)
      | none => none
  else none

/-- Lines 154-165: the stripped price string, `none` while it is still `null`. -/
def findPriceString (page : Page) : Option String :=
  if isProductPage page then
    match page.priceWhole with
    | some t => some (stripNonPrice t)
    | none =>
      match page.priceOffscreen with
      | some t => some (stripNonPrice t)
      | none => none
  else none

/-- Lines 137 and 167-168: `priceValue`, `none` for NaN. -/
def findPriceValue (env : Env) : Option JSNum :=
  match findPriceString env.page with
  | some s => if s ≠ "" then parseFloat env.rnd s else none
  | none => none

/-- Lines 136 and 169-176: the flag `isHighValue`. -/
def computeIsHighValue (priceValue : Option JSNum) : Bool :=
  match priceValue with
  | some v => v.ge 20000
  | none => false

/-- The function `extractProductData`: the record or `null`, and the storage afterwards. -/
def extractProductData (env : Env) (storage : JSObj) : Option ProductRecord × JSObj :=
  let productName := findProductName env.page
  let priceValue := findPriceValue env
  let isHighValue := computeIsHighValue priceValue
  let imageUrl := if isProductPage env.page then env.page.landingImage else none
  let ident := resolveUserId storage env.uuid
  match productName, priceValue with
  | some name, some price =>
    if name ≠ "" then
      (some
        { user_id := ident.1
          source := "browser_extension"
          url := env.page.href
          name := name
          price := price
          imageUrl := imageUrl
          timestamp := env.now
          eventType := if isHighValue then "product_buy_now_clicked_high_value"
            else "product_buy_now_clicked_normal"
          user_consent := true
          isHighValue := isHighValue },
        ident.2)
    else (none, ident.2)
  | _, _ => (none, ident.2)

/-! ## The document around a click (`content.js` lines 8-59) -/

/-- A listed control of a form, or an image inside it, with what the page script reads. -/
structure Control where
  /-- The interface of the element, as in the text `[object HTMLInputElement]`. -/
  interfaceName : String
  /-- The `id`. -/
  id : String
  /-- The `name` (attribute and property agree on listed elements and images), empty when it
  is undefined or empty. -/
  name : String
  /-- The property `.value`; `none` when the element has none (fieldset, object, img). -/
  value : Option String
  /-- The property `.type`, empty when undefined. -/
  type : String
  /-- The property `.disabled`, false when undefined. -/
  disabled : Bool
  /-- The property `.checked`, false when undefined. -/
  checked : Bool
  deriving DecidableEq

/-- A form element. -/
structure Form where
  /-- The form's own property `action`. -/
  action : String
  /-- The form's own property `method`. -/
  method : String
  /-- The listed elements of the form (its own `elements` collection), in tree order. -/
  controls : List Control
  /-- The `img` descendants of the form, in tree order. -/
  images : List Control
  deriving DecidableEq

/-- The elements a form answers the named property `n` with: the listed elements whose `id` or
`name` is `n`, or, when there is none, the images whose `id` or `name` is `n`. -/
def Form.namedItems (f : Form) (n : String) : List Control :=
  let listed := f.controls.filter fun c => decide (c.id = n ∨ c.name = n)
  if listed.isEmpty then f.images.filter fun c => decide (c.id = n ∨ c.name = n) else listed

/-- The text a named property converts to: one element gives `[object Interface]`, several give
a `RadioNodeList`; `none` when the name is not taken. -/
def namedItemsText (items : List Control) : Option String :=
  match items with
  | [] => none
  | [c] => some ("[object " ++ c.interfaceName ++ "]")
  | _ :: _ :: _ => some "[object RadioNodeList]"

/-- Line 29: `parentForm.action`.  The variable then holds a string or an element; an element
is kept as the text it converts to, which is non-empty as the element is truthy. -/
def Form.readAction (f : Form) : String :=
  match namedItemsText (f.namedItems "action") with
  | some text => text
  | none => f.action

/-- Line 30: `parentForm.method || 'GET'`, an element being kept as the text it converts to. -/
def Form.readMethod (f : Form) : String :=
  match namedItemsText (f.namedItems "method") with
  | some text => text
  | none => if f.method ≠ "" then f.method else "GET"

/-- Line 34: `Array.from(parentForm.elements)`.  A single element of that name is not a list
of controls (a select lists its options, which have no name) and several form a node list. -/
def Form.readElements (f : Form) : List Control :=
  match f.namedItems "elements" with
  | [] => f.controls
  | [_] => []
  | c :: d :: rest => c :: d :: rest

/-- One element on the path from the click target to the document root. -/
structure Node where
  /-- The local name, lower case. -/
  tag : String
  /-- The `id`. -/
  id : String
  /-- The class list. -/
  classes : List String
  /-- The `name` attribute, when present. -/
  nameAttr : Option String
  /-- The property `.name`, empty when it is undefined or empty. -/
  name : String
  /-- The property `.value`, empty when it is undefined or empty. -/
  value : String
  /-- The form properties when the element is a form. -/
  form : Option Form
  deriving DecidableEq

/-- An element reference: the element and its ancestors, nearest first. -/
structure Element where
  node : Node
  ancestors : List Node
  deriving DecidableEq

/-- The selector `#buy-now-button` (and the test `id === 'buy-now-button'`). -/
def matchesBuyNowId (n : Node) : Bool := n.id == "buy-now-button"

/-- The selector `input[name="submit.buy-now"]`. -/
def matchesBuyNowInput (n : Node) : Bool :=
  n.tag == "input" && n.nameAttr == some "submit.buy-now"

/-- The selector `.a-button-text.a-declarative[name="submit.buy-now"]`. -/
def matchesBuyNowText (n : Node) : Bool :=
  n.classes.contains "a-button-text" && n.classes.contains "a-declarative" &&
    n.nameAttr == some "submit.buy-now"

/-- The selector list passed to `closest` at lines 18 and 23. -/
def matchesTrigger (n : Node) : Bool :=
  matchesBuyNowId n || matchesBuyNowInput n || matchesBuyNowText n

/-- The selector `form`. -/
def isFormNode (n : Node) : Bool := n.form.isSome

/-- The first element of a root-ward path that satisfies a selector. -/
def closestChain (p : Node → Bool) : List Node → Option Element
  | [] => none
  | n :: rest => if p n then some ⟨n, rest⟩ else closestChain p rest

/-- The built-in `element.closest(selector)`. -/
def Element.closest (e : Element) (p : Node → Bool) : Option Element :=
  closestChain p (e.node :: e.ancestors)

/-- The condition of lines 14-19: is the click on a purchase trigger? -/
def isTriggerClick (target : Element) : Bool :=
  matchesBuyNowId target.node || matchesBuyNowInput target.node ||
    matchesBuyNowText target.node || (target.closest matchesTrigger).isSome

/-- Line 25: the form around the trigger, `none` for `null`. -/
def parentFormOf (button : Option Element) : Option Form :=
  match button with
  | some b =>
    match b.closest isFormNode with
    | some f => f.node.form
    | none => none
  | none => none

/-- The object `originalFormInputs`: a value is a string or `undefined` (`none`). -/
abbrev FormInputs := List (String × Option String)

/-- The assignment `originalFormInputs[name] = value` of lines 41 and 46: the key `__proto__`
reaches the setter of `Object.prototype`, which ignores strings and `undefined`. -/
def assignInput (inputs : FormInputs) (name : String) (value : Option String) : FormInputs :=
  if name = "__proto__" then inputs else objSet inputs name value

/-- The body of the `forEach` at lines 34-43. -/
def captureControl (inputs : FormInputs) (element : Control) : FormInputs :=
  if element.name ≠ "" ∧ element.disabled = false then
    if (element.type = "radio" ∨ element.type = "checkbox") ∧ element.checked = false then inputs
    else assignInput inputs element.name element.value
  else inputs

/-- Lines 33-47: the snapshot `originalFormInputs` of a form and its trigger. -/
def captureInputs (form : Form) (button : Element) : FormInputs :=
  let inputs := form.readElements.foldl captureControl []
  if button.node.name ≠ "" ∧ button.node.value ≠ "" then
    assignInput inputs button.node.name (some button.node.value)
  else inputs

/-- The array index a key denotes, if any: a canonical decimal numeral below `2^32 - 1`. -/
def arrayIndex (key : String) : Option Nat :=
  let cs := key.data
  if cs ≠ [] ∧ cs.all Char.isDigit = true ∧ (cs.head? ≠ some '0' ∨ cs.length = 1) ∧
      digitsValue cs ≤ 4294967294 then
    some (digitsValue cs)
  else none

/-- The order in which `for (const name in inputs)` visits the entries: array-index keys in
ascending order, then the other keys in the order of their creation. -/
def forInOrder (inputs : FormInputs) : FormInputs :=
  (inputs.filter fun kv => (arrayIndex kv.1).isSome).insertionSort
      (fun a b => (arrayIndex a.1).getD 0 ≤ (arrayIndex b.1).getD 0) ++
    inputs.filter fun kv => (arrayIndex kv.1).isNone

/-! ## Page-script state and effects -/

/-- A hidden input appended to the temporary form (lines 304-308). -/
structure HiddenInput where
  type : String
  name : String
  value : String
  deriving DecidableEq

/-- An observable action of the page script. -/
inductive Effect where
  /-- A call of `chrome.runtime.sendMessage` with `{action, data}`. -/
  | sendMessage (action : String) (data : ProductRecord)
  /-- A modal is removed from the document. -/
  | popupRemoved
  /-- A modal is appended to the body; the price shown, `none` for `N/A`. -/
  | popupShown (price : Option JSNum)
  /-- The call `tempForm.submit()` of line 313 is made: the values assigned to
  `tempForm.method` and `tempForm.action` and the hidden inputs appended, in order. -/
  | formSubmitted (method action : String) (fields : List HiddenInput)
  /-- The OK listener ends in an uncaught `TypeError` (a shadowed method of the temporary form
  is called). -/
  | typeError
  /-- A call of `button.click()`, with what the capturing listener did to the event. -/
  | buttonClicked (button : Element) (defaultPrevented propagationStopped : Bool)
  /-- The click reached the button and its default action ran. -/
  | nativeActivation (button : Element)
  /-- The branch of line 320: nothing to resume. -/
  | replayError
  deriving DecidableEq

/-- The module-level variables of `content.js`, the modal and `localStorage`. -/
structure State where
  originalBuyNowButton : Option Element
  originalForm : Option Form
  originalFormAction : String
  originalFormMethod : String
  originalFormInputs : FormInputs
  /-- The element `#extension-notification-popup`, with the price it shows. -/
  popup : Option (Option JSNum)
  /-- The page's `localStorage`. -/
  storage : JSObj

/-- What the capturing click listener did with one event. -/
structure ClickResult where
  state : State
  effects : List Effect
  defaultPrevented : Bool
  propagationStopped : Bool

/-- The price a modal shows: line 281, `N/A` for a falsy price. -/
def shownPrice (price : JSNum) : Option JSNum :=
  if price = JSNum.fin 0 then none else some price

/-- The function `showInPageNotification` up to the attachment of the OK listener. -/
def showInPageNotification (s : State) (_productName : String) (productPrice : JSNum) :
    State × List Effect :=
  ({ s with popup := some (shownPrice productPrice) },
    (if s.popup.isSome then [Effect.popupRemoved] else []) ++
      [Effect.popupShown (shownPrice productPrice)])

/-- Lines 23-59: the capture step. -/
def captureState (s : State) (target : Element) : State :=
  let button := target.closest matchesTrigger
  match button, parentFormOf button with
  | some b, some f =>
    { s with
      originalBuyNowButton := button
      originalForm := some f
      originalFormAction := f.readAction
      originalFormMethod := f.readMethod
      originalFormInputs := captureInputs f b }
  | _, _ =>
    { s with
      originalBuyNowButton := button
      originalForm := none
      originalFormAction := ""
      originalFormMethod := ""
      originalFormInputs := [] }

/-- The capturing click listener of the document (lines 8-95). -/
def clickListener (env : Env) (s : State) (target : Element) : ClickResult :=
  if isTriggerClick target then
    let s1 := captureState s target
    let ex := extractProductData env s1.storage
    let s2 := { s1 with storage := ex.2 }
    match ex.1 with
    | some productData =>
      let sent := Effect.sendMessage "sendProductData" productData
      if productData.isHighValue then
        let shown := showInPageNotification s2 productData.name productData.price
        { state := shown.1, effects := sent :: shown.2
          defaultPrevented := true, propagationStopped := true }
      else
        { state := s2, effects := [sent], defaultPrevented := false, propagationStopped := false }
    | none =>
      { state := s2, effects := [], defaultPrevented := false, propagationStopped := false }
  else
    { state := s, effects := [], defaultPrevented := false, propagationStopped := false }

/-- The built-in `button.click()`: the click event goes through the capturing document
listener first; it reaches the button and runs its default action only when the listener
neither stopped nor cancelled it. -/
def buttonClick (env : Env) (s : State) (button : Element) : State × List Effect :=
  let r := clickListener env s button
  (r.state,
    Effect.buttonClicked button r.defaultPrevented r.propagationStopped :: r.effects ++
      (if r.defaultPrevented || r.propagationStopped then [] else [Effect.nativeActivation button]))

/-- Lines 304-307: the hidden input made for one entry; the value `undefined` is assigned as
the text `undefined`. -/
def hiddenInput (kv : String × Option String) : HiddenInput :=
  { type := "hidden", name := kv.1, value := kv.2.getD "undefined" }

/-- The hidden inputs of a list of entries, in order. -/
def hiddenInputs (inputs : FormInputs) : List HiddenInput := inputs.map hiddenInput

/-- The loop of lines 303-309 from the inputs already appended: `tempForm.appendChild` is the
method of the form only as long as no appended input is named `appendChild`; afterwards the
call throws (`none`). -/
def appendHiddenInputs : List HiddenInput → FormInputs → Option (List HiddenInput)
  | appended, [] => some appended
  | appended, kv :: rest =>
    if appended.any (fun i => decide (i.name = "appendChild")) then none
    else appendHiddenInputs (appended ++ [hiddenInput kv]) rest

/-- Lines 298-313: the temporary form is built and submitted; `none` when `appendChild` or
`submit` is shadowed by a hidden input, so that the call throws a `TypeError`. -/
def replayForm (inputs : FormInputs) : Option (List HiddenInput) :=
  match appendHiddenInputs [] (forInOrder inputs) with
  | some fields => if fields.any (fun i => decide (i.name = "submit")) then none else some fields
  | none => none

/-- Lines 323-327: the capture state is cleared. -/
def clearCapture (s : State) : State :=
  { s with
    originalBuyNowButton := none
    originalForm := none
    originalFormAction := ""
    originalFormMethod := ""
    originalFormInputs := [] }

/-- The click listener of the OK button (lines 289-328).  When the replay throws, the listener
ends there and lines 323-327 are not reached. -/
def okButtonListener (env : Env) (s : State) : State × List Effect :=
  let s0 := { s with popup := none }
  if s0.originalForm.isSome ∧ s0.originalFormAction ≠ "" then
    match replayForm s0.originalFormInputs with
    | some fields =>
      (clearCapture s0,
        [Effect.popupRemoved,
          Effect.formSubmitted s0.originalFormMethod s0.originalFormAction fields])
    | none => (s0, [Effect.popupRemoved, Effect.typeError])
  else
    let resumed : State × List Effect :=
      match s0.originalBuyNowButton with
      | some b => buttonClick env s0 b
      | none => (s0, [Effect.replayError])
    (clearCapture resumed.1, Effect.popupRemoved :: resumed.2)

/-! ## The background script (`background.js`) -/

/-- A JSON-serialisable value of a message. -/
inductive JSVal where
  | str (s : String)
  | num (x : JSNum)
  | bool (b : Bool)
  | null
  | undefined
  deriving DecidableEq

/-- The object literal of lines 205-216 of `content.js`, key by key. -/
def recordToObject (r : ProductRecord) : List (String × JSVal) :=
  [("user_id", .str r.user_id), ("source", .str r.source), ("url", .str r.url),
   ("name", .str r.name), ("price", .num r.price),
   ("imageUrl", match r.imageUrl with
     | some u => .str u
     | none => .null),
   ("timestamp", .str r.timestamp), ("eventType", .str r.eventType),
   ("user_consent", .bool r.user_consent), ("isHighValue", .bool r.isHighValue)]

/-- Object spread `{...base, ...src}`: the properties of `src` are assigned in order. -/
def spreadInto (base src : List (String × JSVal)) : List (String × JSVal) :=
  src.foldl (fun o kv => objSet o kv.1 kv.2) base

/-- A message received by the background listener. -/
structure Request where
  action : String
  data : List (String × JSVal)

/-- How the `fetch` of line 23 ends. -/
inductive FetchOutcome where
  | networkError (message : String)
  | response (ok : Bool) (status : Nat) (text : String)

/-- The argument of `sendResponse`. -/
inductive Response where
  | success (response : String)
  | error (error : String)
  deriving DecidableEq

/-- What the background listener does with one message. -/
structure RelayResult where
  /-- The webhook URL and JSON payload of the POST, when one is issued. -/
  posted : Option (String × List (String × JSVal))
  /-- The response sent back, when one is sent. -/
  response : Option Response
  /-- The return value `true` that keeps the channel open. -/
  keepChannelOpen : Bool

/-- The `chrome.runtime.onMessage` listener of `background.js` (lines 12-47); `userId` is the
module variable of line 1, `none` while it is still undefined. -/
def onMessage (userId : Option String) (request : Request) (outcome : FetchOutcome) :
    RelayResult :=
  if request.action = "sendToADK" then
    let payload := spreadInto
      [("user_id", match userId with
        | some u => .str u
        | none => .undefined)]
      request.data
    { posted := some ("", payload)
      response := some <|
        match outcome with
        | .networkError message => .error message
        | .response ok status text =>
          if ok then .success text else .error ("HTTP error! status: " ++ toString status)
      keepChannelOpen := true }
  else { posted := none, response := none, keepChannelOpen := false }

/-- The message the page script sends at line 69 of `content.js`. -/
def pageMessage (r : ProductRecord) : Request :=
  { action := "sendProductData", data := recordToObject r }

/-! ## Price decoration (the strings of the price property) -/

/-- A currency symbol: a code point of the Unicode category Sc. -/
def isCurrencySymbol (c : Char) : Bool :=
  let n := c.toNat
  n == 0x24 || (0xA2 ≤ n && n ≤ 0xA5) || n == 0x58F || n == 0x60B ||
  (0x7FE ≤ n && n ≤ 0x7FF) || (0x9F2 ≤ n && n ≤ 0x9F3) || n == 0x9FB || n == 0xAF1 ||
  n == 0xBF9 || n == 0xE3F || n == 0x17DB || (0x20A0 ≤ n && n ≤ 0x20C0) || n == 0xA838 ||
  n == 0xFDFC || n == 0xFE69 || n == 0xFF04 || (0xFFE0 ≤ n && n ≤ 0xFFE1) ||
  (0xFFE5 ≤ n && n ≤ 0xFFE6) || (0x11FDD ≤ n && n ≤ 0x11FE0) || n == 0x1E2FF || n == 0x1ECB0

/-- A decoration of a price: a comma or a currency symbol. -/
def isDecoration (c : Char) : Bool := c == ',' || isCurrencySymbol c

/-- A plain decimal numeral: digits and at most one decimal point, at least one digit. -/
def isPlainNumeral (p : List Char) : Bool :=
  p.all isPriceChar && decide (p.count '.' ≤ 1) && p.any Char.isDigit

/-- Is `s` the numeral `plain` with decorations put in front of, between or after its
characters? -/
def isDecorated : List Char → List Char → Bool
  | plain, [] => plain.isEmpty
  | plain, c :: s =>
    if isDecoration c then isDecorated plain s
    else
      match plain with
      | [] => false
      | d :: rest => c == d && isDecorated rest s

/-- The controls the capture loop writes into the snapshot: those with a name, not disabled,
and not an unchecked radio button or checkbox. -/
def isCaptured (c : Control) : Bool :=
  decide (c.name ≠ "") && !c.disabled &&
    !((c.type == "radio" || c.type == "checkbox") && !c.checked)

/-- The trigger contributes its own pair when both its name and its value are set. -/
def hasOwnPair (button : Element) : Bool :=
  decide (button.node.name ≠ "") && decide (button.node.value ≠ "")

/-! ## Sample inputs -/

/-- A product page showing the price `₹20,000`. -/
def samplePage : Page :=
  { href := "https://www.amazon.in/dp/B0EXAMPLE"
    pathname := some "/dp/B0EXAMPLE"
    productTitle := some "  Phone  "
    title := none
    priceWhole := some "₹20,000"
    priceOffscreen := none
    landingImage := none }

/-- An environment around `samplePage` with exact arithmetic. -/
def sampleEnv : Env :=
  { rnd := JSNum.fin, page := samplePage, uuid := "page-uuid-1", now := "2025-01-01T00:00:00.000Z" }

/-- The record `extractProductData` builds in `sampleEnv` on empty storage. -/
def sampleRecord : ProductRecord :=
  { user_id := "page-uuid-1"
    source := "browser_extension"
    url := "https://www.amazon.in/dp/B0EXAMPLE"
    name := "Phone"
    price := JSNum.fin 20000
    imageUrl := none
    timestamp := "2025-01-01T00:00:00.000Z"
    eventType := "product_buy_now_clicked_high_value"
    user_consent := true
    isHighValue := true }

/-- A background identity different from the page identity of `sampleRecord`. -/
def sampleBackgroundId : String := "background-uuid-7"

/-- A successful answer of the webhook. -/
def sampleOutcome : FetchOutcome := FetchOutcome.response true 200 "ok"

/-- The state of a freshly loaded page script (lines 1-5), empty storage, no modal. -/
def initialState : State :=
  { originalBuyNowButton := none
    originalForm := none
    originalFormAction := ""
    originalFormMethod := ""
    originalFormInputs := []
    popup := none
    storage := [] }

/-- The first of two checked checkboxes of the same name. -/
def sampleCheckboxA : Control :=
  { interfaceName := "HTMLInputElement", id := "", name := "opt", value := some "a"
    type := "checkbox", disabled := false, checked := true }

/-- The second of two checked checkboxes of the same name. -/
def sampleCheckboxB : Control :=
  { interfaceName := "HTMLInputElement", id := "", name := "opt", value := some "b"
    type := "checkbox", disabled := false, checked := true }

/-- A form with two checked checkboxes of the same name. -/
def sampleForm : Form :=
  { action := "https://www.amazon.in/checkout"
    method := "post"
    controls := [sampleCheckboxA, sampleCheckboxB]
    images := [] }

/-- The node of a buy-now input. -/
def sampleButtonNode : Node :=
  { tag := "input", id := "buy-now-button", classes := [], nameAttr := some "submit.buy-now"
    name := "submit.buy-now", value := "Buy Now", form := none }

/-- A buy-now input inside `sampleForm`. -/
def sampleFormButton : Element :=
  { node := sampleButtonNode
    ancestors := [{ tag := "form", id := "", classes := [], nameAttr := none, name := "", value := ""
                    form := some sampleForm }] }

/-- A buy-now input outside any form. -/
def sampleButton : Element := { node := sampleButtonNode, ancestors := [] }

/-- The state holding the snapshot POST `/checkout` with fields `a=1`, `b=2`. -/
def sampleSnapshotState : State :=
  { originalBuyNowButton := some sampleFormButton
    originalForm := some sampleForm
    originalFormAction := "/checkout"
    originalFormMethod := "POST"
    originalFormInputs := [("a", some "1"), ("b", some "2")]
    popup := some (some (JSNum.fin 20000))
    storage := [] }

/-- A buy form whose submit button is named `submit`: a hidden `asin` field and the buy-now
button itself. -/
def sampleSubmitForm : Form :=
  { action := "https://www.amazon.in/checkout"
    method := "post"
    controls :=
      [{ interfaceName := "HTMLInputElement", id := "", name := "asin", value := some "B0EXAMPLE"
         type := "hidden", disabled := false, checked := false },
       { interfaceName := "HTMLInputElement", id := "buy-now-button", name := "submit"
         value := some "Buy Now", type := "submit", disabled := false, checked := false }]
    images := [] }

/-- The buy-now button of `sampleSubmitForm`, inside that form. -/
def sampleSubmitButton : Element :=
  { node :=
      { tag := "input", id := "buy-now-button", classes := [], nameAttr := some "submit"
        name := "submit", value := "Buy Now", form := none }
    ancestors := [{ tag := "form", id := "", classes := [], nameAttr := none, name := "", value := ""
                    form := some sampleSubmitForm }] }

/-! ## Lemmas on objects -/

theorem objGet_objSet_same {β : Type} (o : List (String × β)) (k : String) (v : β) :
    objGet (objSet o k v) k = some v := by
  induction o with
  | nil => simp [objSet, objGet]
  | cons kv o ih =>
    obtain ⟨k', v'⟩ := kv
    by_cases h : k' = k
    · simp [objSet, objGet, h]
    · simp [objSet, objGet, h, ih]

theorem objGet_objSet_other {β : Type} (o : List (String × β)) (k k' : String) (v : β)
    (h : k ≠ k') : objGet (objSet o k v) k' = objGet o k' := by
  induction o with
  | nil => simp [objSet, objGet, h]
  | cons kv o ih =>
    obtain ⟨k₁, v₁⟩ := kv
    by_cases h₁ : k₁ = k
    · subst h₁
      simp [objSet, objGet, h]
    · simp [objSet, objGet, h₁, ih]

/-! ## Lemmas on characters and numerals -/

theorem isDigit_toNat (c : Char) (h : c.isDigit = true) : 48 ≤ c.toNat ∧ c.toNat ≤ 57 := by
  simp [Char.isDigit] at h
  exact ⟨UInt32.le_def.mp h.1, UInt32.le_def.mp h.2⟩

theorem isDecoration_not_priceChar (c : Char) (h : isDecoration c = true) :
    isPriceChar c = false := by
  cases hp : isPriceChar c with
  | false => rfl
  | true =>
    exfalso
    have hn : (48 ≤ c.toNat ∧ c.toNat ≤ 57) ∨ c.toNat = 46 := by
      simp only [isPriceChar, Bool.or_eq_true, beq_iff_eq] at hp
      rcases hp with hd | hd
      · exact Or.inl (isDigit_toNat c hd)
      · subst hd
        exact Or.inr rfl
    have hc : c = ',' ∨ isCurrencySymbol c = true := by
      simpa [isDecoration] using h
    rcases hc with hc | hc
    · subst hc
      revert hn
      decide
    · simp only [isCurrencySymbol, Bool.or_eq_true, Bool.and_eq_true, beq_iff_eq,
        decide_eq_true_eq] at hc
      omega

theorem filter_of_isDecorated (s plain : List Char) (hp : plain.all isPriceChar = true)
    (hd : isDecorated plain s = true) : s.filter isPriceChar = plain := by
  induction s generalizing plain with
  | nil =>
    cases plain with
    | nil => rfl
    | cons d rest => simp [isDecorated] at hd
  | cons c s ih =>
    cases hc : isDecoration c with
    | true =>
      have hk := isDecoration_not_priceChar c hc
      simp only [isDecorated, hc, if_true] at hd
      simp [List.filter, hk, ih plain hp hd]
    | false =>
      cases plain with
      | nil => simp [isDecorated, hc] at hd
      | cons d rest =>
        simp only [isDecorated, hc, Bool.false_eq_true, if_false, Bool.and_eq_true,
          beq_iff_eq] at hd
        simp only [List.all_cons, Bool.and_eq_true] at hp
        obtain ⟨hcd, hrest⟩ := hd
        subst hcd
        simp [List.filter, hp.1, ih rest hp.2 hrest]

theorem parseFloatChars_isSome_of_plain (rnd : ℚ → JSNum) (p : List Char)
    (h : isPlainNumeral p = true) : (parseFloatChars rnd p).isSome = true := by
  simp only [isPlainNumeral, Bool.and_eq_true, decide_eq_true_eq] at h
  obtain ⟨⟨hall, hcount⟩, hany⟩ := h
  cases p with
  | nil => simp at hany
  | cons c p' =>
    cases hc : c.isDigit with
    | true =>
      unfold parseFloatChars
      simp only [List.takeWhile_cons, hc, if_true]
      split <;> simp
    | false =>
      have hdot : c = '.' := by
        simp only [List.all_cons, Bool.and_eq_true, isPriceChar, hc, Bool.false_or,
          beq_iff_eq] at hall
        exact hall.1
      subst hdot
      cases p' with
      | nil => simp [hc] at hany
      | cons d more =>
        have hd : d.isDigit = true := by
          simp only [List.all_cons, Bool.and_eq_true, isPriceChar, Bool.or_eq_true,
            beq_iff_eq] at hall
          rcases hall.2.1 with hd | hd
          · exact hd
          · subst hd
            simp [List.count_cons] at hcount
        unfold parseFloatChars
        simp [hc, hd]

/-! ## Lemmas on extraction -/

theorem extractProductData_snd (env : Env) (storage : JSObj) :
    (extractProductData env storage).2 = (resolveUserId storage env.uuid).2 := by
  unfold extractProductData
  cases findProductName env.page <;> cases findPriceValue env <;> simp
  split <;> rfl

theorem extractProductData_eq_some (env : Env) (storage : JSObj) (r : ProductRecord)
    (h : (extractProductData env storage).1 = some r) :
    ∃ name price, findProductName env.page = some name ∧ name ≠ "" ∧
      findPriceValue env = some price ∧ r.name = name ∧ r.price = price ∧
      r.isHighValue = price.ge 20000 ∧
      r.user_id = (resolveUserId storage env.uuid).1 ∧
      r.eventType = (if price.ge 20000 = true then "product_buy_now_clicked_high_value"
        else "product_buy_now_clicked_normal") := by
  unfold extractProductData at h
  cases hn : findProductName env.page with
  | none => simp [hn] at h
  | some name =>
    cases hp : findPriceValue env with
    | none => simp [hn, hp] at h
    | some price =>
      by_cases hne : name = ""
      · simp [hn, hp, hne] at h
      · simp only [hn, hp, hne, ne_eq, not_false_eq_true, if_true, Option.some.injEq] at h
        subst h
        exact ⟨name, price, rfl, hne, rfl, rfl, rfl, rfl, rfl, rfl⟩

theorem extractProductData_highValue_storage (env : Env) (storage storage' : JSObj) :
    (extractProductData env storage).1.map ProductRecord.isHighValue =
      (extractProductData env storage').1.map ProductRecord.isHighValue := by
  unfold extractProductData
  cases findProductName env.page <;> cases findPriceValue env <;> simp
  split <;> rfl

/-! ## Price parsing and classification -/

/-- C8: for a plain decimal numeral (digits, at most one decimal point) decorated with
currency symbols and commas, removing every character that is not a digit or a dot and
parsing the result gives the same number as parsing the plain numeral, and that number is
not NaN; for `₹20,000.00` it is 20000. -/
theorem C8_strip_then_parse_eq_plain (rnd : ℚ → JSNum) (plain text : String)
    (hplain : isPlainNumeral plain.data = true)
    (hdecorated : isDecorated plain.data text.data = true) :
    parseFloat rnd (stripNonPrice text) = parseFloat rnd plain ∧
    (parseFloat rnd plain).isSome = true ∧
    parseFloat rnd (stripNonPrice "₹20,000.00") = some (rnd 20000) := by
  have hall : plain.data.all isPriceChar = true := by
    simp only [isPlainNumeral, Bool.and_eq_true] at hplain
    exact hplain.1.1
  refine ⟨?_, parseFloatChars_isSome_of_plain rnd plain.data hplain, ?_⟩
  · simp only [parseFloat, stripNonPrice]
    rw [filter_of_isDecorated text.data plain.data hall hdecorated]
  · have hstrip : stripNonPrice "₹20,000.00" = "20000.00" := by decide
    have hparse : parseFloat rnd "20000.00" =
        some (rnd (((2000000 : ℕ) : ℚ) / (10 : ℚ) ^ 2)) := rfl
    rw [hstrip, hparse]
    norm_num

/-- Witness of C8 at the numeral `20000.00` and the text `₹20,000.00`. -/
theorem C8_strip_then_parse_eq_plain_witness :
    isPlainNumeral "20000.00".data = true ∧ isDecorated "20000.00".data "₹20,000.00".data = true ∧
    parseFloat JSNum.fin (stripNonPrice "₹20,000.00") = some (JSNum.fin 20000) :=
  ⟨by decide, by decide,
    (C8_strip_then_parse_eq_plain JSNum.fin "20000.00" "₹20,000.00" (by decide) (by decide)).2.2⟩

/-- C2: in every record returned by `extractProductData`, `isHighValue` is true exactly when
the parsed price is at least 20000 (a price of exactly 20000 gives true, a price of 19999.99
gives false), and the event type is the high-value one exactly when `isHighValue` is true. -/
theorem C2_isHighValue_iff_price_ge_threshold (env : Env) (storage : JSObj) (r : ProductRecord)
    (h : (extractProductData env storage).1 = some r) :
    (∀ q : ℚ, r.price = JSNum.fin q → (r.isHighValue = true ↔ (20000 : ℚ) ≤ q)) ∧
    (r.price = JSNum.inf → r.isHighValue = true) ∧
    (r.price = JSNum.fin 20000 → r.isHighValue = true) ∧
    (r.price = JSNum.fin (1999999 / 100) → r.isHighValue = false) ∧
    (r.eventType = "product_buy_now_clicked_high_value" ↔ r.isHighValue = true) ∧
    (r.eventType = "product_buy_now_clicked_normal" ↔ r.isHighValue = false) := by
  obtain ⟨name, price, -, -, -, -, hprice, hhigh, -, hevent⟩ :=
    extractProductData_eq_some env storage r h
  rw [hhigh, hevent, hprice]
  refine ⟨?_, ?_, ?_, ?_, ?_, ?_⟩
  · intro q hq
    subst hq
    simp [JSNum.ge]
  · intro hq
    subst hq
    rfl
  · intro hq
    subst hq
    simp [JSNum.ge]
  · intro hq
    subst hq
    simp [JSNum.ge]
    norm_num
  · cases price.ge 20000 <;> simp
  · cases price.ge 20000 <;> simp

/-- Witness of C2 on a page showing `₹20,000`. -/
theorem C2_isHighValue_iff_price_ge_threshold_witness :
    (extractProductData sampleEnv []).1 = some sampleRecord ∧
    sampleRecord.isHighValue = true ∧
    sampleRecord.eventType = "product_buy_now_clicked_high_value" :=
  ⟨by decide, rfl,
    (C2_isHighValue_iff_price_ge_threshold sampleEnv [] sampleRecord (by decide)).2.2.2.2.1.mpr
      rfl⟩

/-! ## Identity -/

/-- C9: resolving the page-context identifier twice on the same storage, with nothing cleared
in between, gives the same value both times, and after the first resolution that value is
stored under the key `user_id`; the records of two successive extractions therefore carry
the same `user_id`.  The fresh identifier is a UUID, hence not empty. -/
theorem C9_resolveUserId_twice_same (env₁ env₂ : Env) (storage : JSObj)
    (huuid : env₁.uuid ≠ "") :
    (resolveUserId (resolveUserId storage env₁.uuid).2 env₂.uuid).1 =
      (resolveUserId storage env₁.uuid).1 ∧
    getItem (resolveUserId storage env₁.uuid).2 "user_id" =
      some (resolveUserId storage env₁.uuid).1 ∧
    (resolveUserId (resolveUserId storage env₁.uuid).2 env₂.uuid).2 =
      (resolveUserId storage env₁.uuid).2 ∧
    (∀ r₁ r₂ : ProductRecord, (extractProductData env₁ storage).1 = some r₁ →
      (extractProductData env₂ (extractProductData env₁ storage).2).1 = some r₂ →
      r₂.user_id = r₁.user_id) := by
  have key : ∀ u : String,
      (resolveUserId (resolveUserId storage env₁.uuid).2 u) =
        ((resolveUserId storage env₁.uuid).1, (resolveUserId storage env₁.uuid).2) ∧
      getItem (resolveUserId storage env₁.uuid).2 "user_id" =
        some (resolveUserId storage env₁.uuid).1 := by
    intro u
    have hset : getItem (setItem storage "user_id" env₁.uuid) "user_id" = some env₁.uuid :=
      objGet_objSet_same storage "user_id" env₁.uuid
    cases hg : getItem storage "user_id" with
    | none =>
      have h1 : resolveUserId storage env₁.uuid =
          (env₁.uuid, setItem storage "user_id" env₁.uuid) := by
        simp [resolveUserId, hg]
      rw [h1]
      simp [resolveUserId, hset, huuid]
    | some id =>
      by_cases hid : id = ""
      · have h1 : resolveUserId storage env₁.uuid =
            (env₁.uuid, setItem storage "user_id" env₁.uuid) := by
          simp [resolveUserId, hg, hid]
        rw [h1]
        simp [resolveUserId, hset, huuid]
      · have h1 : resolveUserId storage env₁.uuid = (id, storage) := by
          simp [resolveUserId, hg, hid]
        rw [h1]
        simp [resolveUserId, hg, hid]
  refine ⟨by rw [(key env₂.uuid).1], (key env₂.uuid).2, by rw [(key env₂.uuid).1], ?_⟩
  intro r₁ r₂ h₁ h₂
  obtain ⟨_, _, -, -, -, -, -, -, hid₁, -⟩ := extractProductData_eq_some env₁ storage r₁ h₁
  obtain ⟨_, _, -, -, -, -, -, -, hid₂, -⟩ :=
    extractProductData_eq_some env₂ (extractProductData env₁ storage).2 r₂ h₂
  rw [hid₁, hid₂, extractProductData_snd, (key env₂.uuid).1]

/-- Witness of C9 on empty storage. -/
theorem C9_resolveUserId_twice_same_witness :
    sampleEnv.uuid ≠ "" ∧
    (resolveUserId (resolveUserId [] sampleEnv.uuid).2 "another-uuid").1 = "page-uuid-1" :=
  ⟨by decide,
    (C9_resolveUserId_twice_same sampleEnv { sampleEnv with uuid := "another-uuid" } []
      (by decide)).1.trans (by decide)⟩

/-! ## Relay -/

/-- C6 (evaluation of the code): the background listener handles only the action
`sendToADK`; on the message with action `sendProductData` and the record as data, which is
what the page script sends, it issues no POST and sends no response, whatever the identity
and the network would do. -/
theorem C6_sendProductData_not_relayed (userId : Option String) (r : ProductRecord)
    (outcome : FetchOutcome) :
    (pageMessage r).action = "sendProductData" ∧
    (onMessage userId (pageMessage r) outcome).posted = none ∧
    (onMessage userId (pageMessage r) outcome).response = none ∧
    (onMessage userId (pageMessage r) outcome).keepChannelOpen = false := by
  refine ⟨rfl, ?_, ?_, ?_⟩ <;> simp [onMessage, pageMessage]

/-- C7 (evaluation of the code): when the background listener relays a record built by the
page script, the spread of the record overwrites the key `user_id`, so the payload carries the
page identity of the record and not the identity held by the background script (the whole
payload is the record as sent); for the sample record and a different background identity the
two differ. -/
theorem C7_payload_user_id_is_record_user_id :
    (∀ (userId : Option String) (r : ProductRecord) (outcome : FetchOutcome),
      ∃ payload, (onMessage userId ⟨"sendToADK", recordToObject r⟩ outcome).posted =
          some ("", payload) ∧
        objGet payload "user_id" = some (JSVal.str r.user_id) ∧
        payload = recordToObject r) ∧
    (∃ payload, (onMessage (some sampleBackgroundId) ⟨"sendToADK", recordToObject sampleRecord⟩
          sampleOutcome).posted = some ("", payload) ∧
      objGet payload "user_id" = some (JSVal.str "page-uuid-1") ∧
      objGet payload "user_id" ≠ some (JSVal.str sampleBackgroundId)) := by
  constructor
  · intro userId r outcome
    refine ⟨spreadInto [("user_id", match userId with
      | some u => .str u
      | none => .undefined)] (recordToObject r), by simp [onMessage], ?_, ?_⟩
    · simp [spreadInto, recordToObject, objSet, objGet]
    · simp [spreadInto, recordToObject, objSet]
  · refine ⟨spreadInto [("user_id", .str sampleBackgroundId)] (recordToObject sampleRecord),
      by simp [onMessage], ?_, ?_⟩
    · simp [spreadInto, recordToObject, objSet, objGet, sampleRecord]
    · simp [spreadInto, recordToObject, objSet, objGet, sampleRecord, sampleBackgroundId]

/-! ## The click listener -/

theorem captureState_storage (s : State) (target : Element) :
    (captureState s target).storage = s.storage := by
  simp only [captureState]
  split <;> rfl

theorem captureState_popup (s : State) (target : Element) :
    (captureState s target).popup = s.popup := by
  simp only [captureState]
  split <;> rfl

theorem extractProductData_none_of_name (env : Env) (storage : JSObj)
    (h : findProductName env.page = none ∨ findProductName env.page = some "") :
    (extractProductData env storage).1 = none := by
  unfold extractProductData
  rcases h with h | h
  · rw [h]
  · rw [h]
    cases findPriceValue env <;> simp

theorem extractProductData_none_of_price (env : Env) (storage : JSObj)
    (h : findPriceValue env = none) : (extractProductData env storage).1 = none := by
  unfold extractProductData
  rw [h]
  cases findProductName env.page <;> simp

/-- C1: on every click on a purchase trigger the listener suppresses the default action
(`preventDefault` and `stopImmediatePropagation`) and shows the modal exactly when
`extractProductData` returns a record whose `isHighValue` is true; when it returns `null`
(page not a product page, name missing or blank, price missing or not parsable) or a record
that is not high-value, nothing is suppressed and no modal is shown. -/
theorem C1_click_suppressed_iff_high_value (env : Env) (s : State) (target : Element)
    (htrigger : isTriggerClick target = true) :
    ((clickListener env s target).defaultPrevented = true ∧
        (clickListener env s target).propagationStopped = true ∧
        (∃ price, Effect.popupShown price ∈ (clickListener env s target).effects) ↔
      ∃ r, (extractProductData env s.storage).1 = some r ∧ r.isHighValue = true) ∧
    (((extractProductData env s.storage).1 = none ∨
        ∃ r, (extractProductData env s.storage).1 = some r ∧ r.isHighValue = false) →
      (clickListener env s target).defaultPrevented = false ∧
      (clickListener env s target).propagationStopped = false ∧
      (∀ price, Effect.popupShown price ∉ (clickListener env s target).effects) ∧
      (clickListener env s target).state.popup = s.popup) ∧
    (isProductPage env.page = false → (extractProductData env s.storage).1 = none) ∧
    (env.page.productTitle = none → env.page.title = none →
      (extractProductData env s.storage).1 = none) ∧
    (findProductName env.page = some "" → (extractProductData env s.storage).1 = none) ∧
    (env.page.priceWhole = none → env.page.priceOffscreen = none →
      (extractProductData env s.storage).1 = none) ∧
    (findPriceValue env = none → (extractProductData env s.storage).1 = none) := by
  have hstep : ∀ res, res = clickListener env s target →
      (∀ r, (extractProductData env s.storage).1 = some r → r.isHighValue = true →
        res.defaultPrevented = true ∧ res.propagationStopped = true ∧
        ∃ price, Effect.popupShown price ∈ res.effects) ∧
      (∀ r, (extractProductData env s.storage).1 = some r → r.isHighValue = false →
        res.defaultPrevented = false ∧ res.propagationStopped = false ∧
        (∀ price, Effect.popupShown price ∉ res.effects) ∧ res.state.popup = s.popup) ∧
      ((extractProductData env s.storage).1 = none →
        res.defaultPrevented = false ∧ res.propagationStopped = false ∧
        (∀ price, Effect.popupShown price ∉ res.effects) ∧ res.state.popup = s.popup) := by
    intro res hres
    unfold clickListener at hres
    simp only [htrigger, if_true, captureState_storage] at hres
    cases hex : (extractProductData env s.storage).1 with
    | none =>
      simp only [hex] at hres
      subst hres
      simp [captureState_popup]
    | some r =>
      simp only [hex] at hres
      cases hhv : r.isHighValue with
      | true =>
        simp only [hhv, if_true] at hres
        subst hres
        simp [showInPageNotification, hhv]
      | false =>
        simp only [hhv, Bool.false_eq_true, if_false] at hres
        subst hres
        simp [captureState_popup, hhv]
  obtain ⟨hhigh, hlow, hnone⟩ := hstep _ rfl
  refine ⟨⟨?_, ?_⟩, ?_, ?_, ?_, ?_, ?_, ?_⟩
  · rintro ⟨hprev, -, -⟩
    cases hex : (extractProductData env s.storage).1 with
    | none => rw [(hnone hex).1] at hprev; cases hprev
    | some r =>
      cases hhv : r.isHighValue with
      | true => exact ⟨r, rfl, hhv⟩
      | false => rw [(hlow r hex hhv).1] at hprev; cases hprev
  · rintro ⟨r, hex, hhv⟩
    exact hhigh r hex hhv
  · rintro (hex | ⟨r, hex, hhv⟩)
    · exact hnone hex
    · exact hlow r hex hhv
  · intro hpage
    exact extractProductData_none_of_name env s.storage (Or.inl (by simp [findProductName, hpage]))
  · intro h₁ h₂
    exact extractProductData_none_of_name env s.storage
      (Or.inl (by simp [findProductName, h₁, h₂]))
  · intro hname
    exact extractProductData_none_of_name env s.storage (Or.inr hname)
  · intro h₁ h₂
    exact extractProductData_none_of_price env s.storage
      (by simp [findPriceValue, findPriceString, h₁, h₂])
  · intro hprice
    exact extractProductData_none_of_price env s.storage hprice

/-! ## The capture of form fields -/

theorem captureControl_eq (o : FormInputs) (c : Control) :
    captureControl o c =
      if isCaptured c = true ∧ c.name ≠ "__proto__" then objSet o c.name c.value else o := by
  unfold captureControl isCaptured assignInput
  by_cases hn : c.name = "" <;> cases hd : c.disabled <;> cases hc : c.checked <;>
    by_cases hr : c.type = "radio" <;> by_cases hk : c.type = "checkbox" <;>
    by_cases hp : c.name = "__proto__" <;> simp [hn, hd, hc, hr, hk, hp]

theorem objKeys_objSet {β : Type} (o : List (String × β)) (k : String) (v : β) :
    objKeys (objSet o k v) = if k ∈ objKeys o then objKeys o else objKeys o ++ [k] := by
  induction o with
  | nil => simp [objSet, objKeys]
  | cons kv o ih =>
    obtain ⟨k', v'⟩ := kv
    by_cases h : k' = k
    · subst h
      simp [objSet, objKeys]
    · have h' : ¬ k = k' := fun e => h e.symm
      simp only [objKeys] at ih
      simp only [objSet, h, if_false, objKeys, List.map_cons, List.mem_cons, h', false_or, ih]
      split <;> simp

theorem nodup_objKeys_objSet {β : Type} (o : List (String × β)) (k : String) (v : β)
    (h : (objKeys o).Nodup) : (objKeys (objSet o k v)).Nodup := by
  rw [objKeys_objSet]
  split
  · exact h
  · rename_i hk
    exact List.Nodup.append h (List.nodup_singleton k) (by simpa using hk)

theorem nodup_objKeys_foldl (l : List Control) (o : FormInputs) (h : (objKeys o).Nodup) :
    (objKeys (l.foldl captureControl o)).Nodup := by
  induction l generalizing o with
  | nil => exact h
  | cons c l ih =>
    apply ih
    rw [captureControl_eq]
    split
    · exact nodup_objKeys_objSet o _ _ h
    · exact h

theorem objGet_isSome_objSet {β : Type} (o : List (String × β)) (k k' : String) (v : β)
    (h : (objGet o k').isSome = true) : (objGet (objSet o k v) k').isSome = true := by
  by_cases hk : k = k'
  · subst hk
    simp [objGet_objSet_same]
  · rw [objGet_objSet_other o k k' v hk]
    exact h

theorem foldl_get_isSome_mono (l : List Control) (o : FormInputs) (k : String)
    (h : (objGet o k).isSome = true) : (objGet (l.foldl captureControl o) k).isSome = true := by
  induction l generalizing o with
  | nil => exact h
  | cons c l ih =>
    apply ih
    rw [captureControl_eq]
    split
    · exact objGet_isSome_objSet o _ _ _ h
    · exact h

theorem foldl_captured_isSome (l : List Control) (o : FormInputs) (c : Control) (hc : c ∈ l)
    (hcap : isCaptured c = true) (hname : c.name ≠ "__proto__") :
    (objGet (l.foldl captureControl o) c.name).isSome = true := by
  induction l generalizing o with
  | nil => cases hc
  | cons d l ih =>
    rcases List.mem_cons.mp hc with h | h
    · subst h
      rw [List.foldl_cons]
      apply foldl_get_isSome_mono
      rw [captureControl_eq]
      simp [hcap, hname, objGet_objSet_same]
    · rw [List.foldl_cons]
      exact ih _ h

theorem foldl_get_unwritten (l : List Control) (o : FormInputs) (k : String)
    (h : ∀ d ∈ l, isCaptured d = true → d.name ≠ k) :
    objGet (l.foldl captureControl o) k = objGet o k := by
  induction l generalizing o with
  | nil => rfl
  | cons c l ih =>
    have hl : ∀ d ∈ l, isCaptured d = true → d.name ≠ k :=
      fun d hd => h d (List.mem_cons_of_mem c hd)
    rw [List.foldl_cons, ih _ hl, captureControl_eq]
    split
    · rename_i hcap
      exact objGet_objSet_other o _ _ _ (h c (List.mem_cons_self c l) hcap.1)
    · rfl

theorem foldl_get_source (l : List Control) (o : FormInputs) (k : String) (v : Option String)
    (h : objGet (l.foldl captureControl o) k = some v) :
    objGet o k = some v ∨ ∃ c ∈ l, isCaptured c = true ∧ c.name = k ∧ c.value = v := by
  induction l generalizing o with
  | nil => exact Or.inl h
  | cons c l ih =>
    rcases ih _ h with h' | ⟨d, hd, hrest⟩
    · rw [captureControl_eq] at h'
      split at h'
      · rename_i hcap
        by_cases hk : c.name = k
        · rw [← hk, objGet_objSet_same] at h'
          exact Or.inr ⟨c, List.mem_cons_self c l, hcap.1, hk, Option.some.inj h'⟩
        · rw [objGet_objSet_other o _ _ _ hk] at h'
          exact Or.inl h'
      · exact Or.inl h'
    · exact Or.inr ⟨d, List.mem_cons_of_mem c hd, hrest⟩


theorem isTriggerClick_of_closest (target button : Element)
    (h : target.closest matchesTrigger = some button) : isTriggerClick target = true := by
  simp [isTriggerClick, h]

theorem clickListener_capture (env : Env) (s : State) (target : Element)
    (h : isTriggerClick target = true) :
    (clickListener env s target).state.originalBuyNowButton =
        (captureState s target).originalBuyNowButton ∧
      (clickListener env s target).state.originalForm = (captureState s target).originalForm ∧
      (clickListener env s target).state.originalFormAction =
        (captureState s target).originalFormAction ∧
      (clickListener env s target).state.originalFormMethod =
        (captureState s target).originalFormMethod ∧
      (clickListener env s target).state.originalFormInputs =
        (captureState s target).originalFormInputs := by
  unfold clickListener
  simp only [h, if_true]
  cases (extractProductData env (captureState s target).storage).1 with
  | none => simp
  | some r => cases hhv : r.isHighValue <;> simp [showInPageNotification, hhv]

/-! ## The replay of the snapshot -/

theorem forInOrder_perm (o : FormInputs) : (forInOrder o).Perm o := by
  unfold forInOrder
  have hsort := List.perm_insertionSort
    (fun a b : String × Option String => (arrayIndex a.1).getD 0 ≤ (arrayIndex b.1).getD 0)
    (o.filter fun kv => (arrayIndex kv.1).isSome)
  have hnone : (o.filter fun kv => (arrayIndex kv.1).isNone) =
      o.filter fun kv => !(arrayIndex kv.1).isSome := by
    congr 1
    funext kv
    cases arrayIndex kv.1 <;> rfl
  rw [hnone]
  exact (List.Perm.append_right _ hsort).trans (List.filter_append_perm _ o)

theorem objKeys_forInOrder (o : FormInputs) (k : String) :
    k ∈ objKeys (forInOrder o) ↔ k ∈ objKeys o :=
  ((forInOrder_perm o).map Prod.fst).mem_iff

theorem appendHiddenInputs_eq_some (l : FormInputs) (appended fields : List HiddenInput)
    (h : appendHiddenInputs appended l = some fields) : fields = appended ++ hiddenInputs l := by
  induction l generalizing appended with
  | nil =>
    simp only [appendHiddenInputs, Option.some.injEq] at h
    simp [hiddenInputs, h]
  | cons kv l ih =>
    simp only [appendHiddenInputs] at h
    split at h
    · cases h
    · rw [ih _ h]
      simp [hiddenInputs]

theorem appendHiddenInputs_of_no_appendChild (l : FormInputs) (appended : List HiddenInput)
    (happended : ∀ i ∈ appended, i.name ≠ "appendChild")
    (hl : "appendChild" ∉ objKeys l) :
    appendHiddenInputs appended l = some (appended ++ hiddenInputs l) := by
  induction l generalizing appended with
  | nil => simp [appendHiddenInputs, hiddenInputs]
  | cons kv l ih =>
    simp only [objKeys, List.map_cons, List.mem_cons, not_or] at hl
    have hany : appended.any (fun i => decide (i.name = "appendChild")) = false := by
      rw [Bool.eq_false_iff]
      intro h
      obtain ⟨i, hi, hname⟩ := List.any_eq_true.mp h
      exact happended i hi (of_decide_eq_true hname)
    simp only [appendHiddenInputs, hany, Bool.false_eq_true, if_false]
    rw [ih (appended ++ [hiddenInput kv]) ?_ hl.2]
    · simp [hiddenInputs]
    · intro i hi
      rcases List.mem_append.mp hi with hi | hi
      · exact happended i hi
      · simp only [List.mem_singleton] at hi
        subst hi
        exact fun e => hl.1 e.symm

theorem mem_hiddenInputs_name (l : FormInputs) (k : String) :
    (∃ i ∈ hiddenInputs l, i.name = k) ↔ k ∈ objKeys l := by
  simp only [hiddenInputs, hiddenInput, objKeys, List.mem_map]
  constructor
  · rintro ⟨i, ⟨kv, hkv, rfl⟩, rfl⟩
    exact ⟨kv, hkv, rfl⟩
  · rintro ⟨kv, hkv, rfl⟩
    exact ⟨_, ⟨kv, hkv, rfl⟩, rfl⟩

theorem replayForm_of_plain_keys (o : FormInputs) (hsubmit : "submit" ∉ objKeys o)
    (happend : "appendChild" ∉ objKeys o) :
    replayForm o = some (hiddenInputs (forInOrder o)) := by
  unfold replayForm
  rw [appendHiddenInputs_of_no_appendChild (forInOrder o) [] (by simp)
    (fun h => happend ((objKeys_forInOrder o _).mp h))]
  have hany : (hiddenInputs (forInOrder o)).any (fun i => decide (i.name = "submit")) = false := by
    rw [Bool.eq_false_iff]
    intro h
    obtain ⟨i, hi, hname⟩ := List.any_eq_true.mp h
    exact hsubmit ((objKeys_forInOrder o _).mp
      ((mem_hiddenInputs_name _ _).mp ⟨i, hi, of_decide_eq_true hname⟩))
  simp [hany]

theorem replayForm_eq_some (o : FormInputs) (fields : List HiddenInput)
    (h : replayForm o = some fields) : fields = hiddenInputs (forInOrder o) := by
  unfold replayForm at h
  cases happ : appendHiddenInputs [] (forInOrder o) with
  | none => simp [happ] at h
  | some built =>
    have hbuilt := appendHiddenInputs_eq_some _ _ _ happ
    simp only [happ] at h
    split at h
    · cases h
    · simp only [Option.some.injEq] at h
      rw [← h, hbuilt]
      simp

theorem replayForm_of_submit_key (o : FormInputs) (hsubmit : "submit" ∈ objKeys o) :
    replayForm o = none := by
  cases h : replayForm o with
  | none => rfl
  | some fields =>
    exfalso
    have hfields := replayForm_eq_some o fields h
    unfold replayForm at h
    cases happ : appendHiddenInputs [] (forInOrder o) with
    | none => simp [happ] at h
    | some built =>
      have hbuilt := appendHiddenInputs_eq_some _ _ _ happ
      simp only [List.nil_append] at hbuilt
      obtain ⟨i, hi, hname⟩ := (mem_hiddenInputs_name (forInOrder o) "submit").mpr
        ((objKeys_forInOrder o _).mpr hsubmit)
      have hany : built.any (fun i => decide (i.name = "submit")) = true := by
        rw [hbuilt]
        exact List.any_eq_true.mpr ⟨i, hi, decide_eq_true hname⟩
      simp [happ, hany] at h

theorem objGet_eq_none_of_not_mem {β : Type} (o : List (String × β)) (k : String)
    (h : k ∉ objKeys o) : objGet o k = none := by
  induction o with
  | nil => rfl
  | cons kv o ih =>
    obtain ⟨k', v'⟩ := kv
    simp only [objKeys, List.map_cons, List.mem_cons, not_or] at h
    have hk : ¬ k' = k := fun e => h.1 e.symm
    simp only [objGet, hk, if_false]
    exact ih h.2

theorem count_hiddenInputs (o : FormInputs) (h : (objKeys o).Nodup) (name value : String) :
    (hiddenInputs o).count ⟨"hidden", name, value⟩ =
      if (objGet o name).map (fun w => w.getD "undefined") = some value then 1 else 0 := by
  induction o with
  | nil => simp [hiddenInputs, objGet]
  | cons kv o ih =>
    obtain ⟨k, w⟩ := kv
    simp only [objKeys, List.map_cons, List.nodup_cons] at h
    have ih' := ih h.2
    simp only [hiddenInputs, hiddenInput, List.map_cons, List.count_cons] at ih' ⊢
    rw [ih']
    by_cases hk : k = name
    · subst hk
      have hnone : objGet o k = none := objGet_eq_none_of_not_mem o k h.1
      by_cases hw : w.getD "undefined" = value
      · subst hw
        simp [objGet, hnone]
      · simp [objGet, hnone, hw]
    · simp [objGet, hk]

theorem count_hiddenInputs_forInOrder (o : FormInputs) (h : (objKeys o).Nodup)
    (name value : String) :
    (hiddenInputs (forInOrder o)).count ⟨"hidden", name, value⟩ =
      if (objGet o name).map (fun w => w.getD "undefined") = some value then 1 else 0 := by
  rw [← count_hiddenInputs o h name value]
  exact ((forInOrder_perm o).map hiddenInput).count_eq _

theorem clickListener_no_formSubmitted (env : Env) (s : State) (target : Element)
    (method action : String) (fields : List HiddenInput) :
    Effect.formSubmitted method action fields ∉ (clickListener env s target).effects := by
  unfold clickListener
  by_cases h : isTriggerClick target = true
  · simp only [h, if_true]
    cases (extractProductData env (captureState s target).storage).1 with
    | none => simp
    | some r =>
      cases hhv : r.isHighValue
      · simp [hhv]
      · simp only [hhv, if_true, showInPageNotification]
        split <;> simp
  · simp [h]

theorem okButtonListener_formSubmitted (env : Env) (s : State) (method action : String)
    (fields : List HiddenInput)
    (h : Effect.formSubmitted method action fields ∈ (okButtonListener env s).2) :
    method = s.originalFormMethod ∧ action = s.originalFormAction ∧
      fields = hiddenInputs (forInOrder s.originalFormInputs) := by
  unfold okButtonListener at h
  simp only at h
  split at h
  · cases hreplay : replayForm s.originalFormInputs with
    | none => simp [hreplay] at h
    | some built =>
      simp only [hreplay, List.mem_cons, List.mem_singleton, Effect.formSubmitted.injEq,
        List.not_mem_nil, or_false, false_or, reduceCtorEq] at h
      exact ⟨h.1, h.2.1, h.2.2.trans (replayForm_eq_some _ _ hreplay)⟩
  · exfalso
    cases hb : s.originalBuyNowButton with
    | none => simp [hb] at h
    | some b =>
      simp only [hb, buttonClick, List.mem_cons, List.mem_append, reduceCtorEq, false_or] at h
      rcases h with h | h
      · exact clickListener_no_formSubmitted _ _ _ _ _ _ h
      · split at h <;> simp at h

theorem okButtonListener_of_plain_keys (env : Env) (s : State) (form : Form)
    (hform : s.originalForm = some form) (haction : s.originalFormAction ≠ "")
    (hsubmit : "submit" ∉ objKeys s.originalFormInputs)
    (happend : "appendChild" ∉ objKeys s.originalFormInputs) :
    okButtonListener env s =
      (clearCapture { s with popup := none },
        [Effect.popupRemoved,
          Effect.formSubmitted s.originalFormMethod s.originalFormAction
            (hiddenInputs (forInOrder s.originalFormInputs))]) := by
  simp [okButtonListener, hform, haction, replayForm_of_plain_keys _ hsubmit happend]

theorem okButtonListener_of_submit_key (env : Env) (s : State) (form : Form)
    (hform : s.originalForm = some form) (haction : s.originalFormAction ≠ "")
    (hsubmit : "submit" ∈ objKeys s.originalFormInputs) :
    okButtonListener env s =
      ({ s with popup := none }, [Effect.popupRemoved, Effect.typeError]) := by
  simp [okButtonListener, hform, haction, replayForm_of_submit_key _ hsubmit]

/-- C3 (evaluation of the code): with a snapshot held and a non-empty target URL, the
acknowledgement submits the temporary form once, with the snapshot's method and target URL
and exactly one hidden field per captured name, and clears the capture state, as long as no
captured name is `submit` or `appendChild`.  When a captured name is `submit`, the hidden
input of that name shadows `tempForm.submit`, the call of line 313 throws, no form is
submitted, the trigger is not clicked and the capture state is not cleared.  A buy form whose
buy-now button is named `submit` is such a case. -/
theorem C3_ack_throws_when_submit_is_shadowed (env : Env) (s : State) (form : Form)
    (hform : s.originalForm = some form) (haction : s.originalFormAction ≠ "")
    (hkeys : (objKeys s.originalFormInputs).Nodup) :
    ("submit" ∉ objKeys s.originalFormInputs → "appendChild" ∉ objKeys s.originalFormInputs →
      (okButtonListener env s).2 =
        [Effect.popupRemoved,
          Effect.formSubmitted s.originalFormMethod s.originalFormAction
            (hiddenInputs (forInOrder s.originalFormInputs))] ∧
      (∀ name value,
        (hiddenInputs (forInOrder s.originalFormInputs)).count ⟨"hidden", name, value⟩ =
          if (objGet s.originalFormInputs name).map (fun w => w.getD "undefined") = some value
          then 1 else 0) ∧
      (okButtonListener env s).1.originalForm = none ∧
      (okButtonListener env s).1.originalFormInputs = []) ∧
    ("submit" ∈ objKeys s.originalFormInputs →
      (okButtonListener env s).2 = [Effect.popupRemoved, Effect.typeError] ∧
      (∀ method action fields,
        Effect.formSubmitted method action fields ∉ (okButtonListener env s).2) ∧
      (∀ b p q, Effect.buttonClicked b p q ∉ (okButtonListener env s).2) ∧
      (okButtonListener env s).1.originalForm = some form ∧
      (okButtonListener env s).1.originalFormInputs = s.originalFormInputs) ∧
    ((clickListener sampleEnv initialState sampleSubmitButton).defaultPrevented = true ∧
      (clickListener sampleEnv initialState sampleSubmitButton).state.originalFormInputs =
        [("asin", some "B0EXAMPLE"), ("submit", some "Buy Now")] ∧
      (okButtonListener sampleEnv
        (clickListener sampleEnv initialState sampleSubmitButton).state).2 =
        [Effect.popupRemoved, Effect.typeError]) := by
  refine ⟨?_, ?_, by decide, by decide, by decide⟩
  · intro hsubmit happend
    rw [okButtonListener_of_plain_keys env s form hform haction hsubmit happend]
    exact ⟨rfl, count_hiddenInputs_forInOrder _ hkeys, rfl, rfl⟩
  · intro hsubmit
    rw [okButtonListener_of_submit_key env s form hform haction hsubmit]
    exact ⟨rfl, by simp, by simp, hform, rfl⟩

/-- Evaluation of C3 on the snapshot POST `/checkout` with `a=1`, `b=2`, which has no name
`submit`: the form is submitted. -/
theorem C3_ack_throws_when_submit_is_shadowed_witness :
    sampleSnapshotState.originalForm = some sampleForm ∧
    sampleSnapshotState.originalFormAction ≠ "" ∧
    (okButtonListener sampleEnv sampleSnapshotState).2 =
      [Effect.popupRemoved,
        Effect.formSubmitted "POST" "/checkout" [⟨"hidden", "a", "1"⟩, ⟨"hidden", "b", "2"⟩]] :=
  ⟨rfl, by decide,
    ((C3_ack_throws_when_submit_is_shadowed sampleEnv sampleSnapshotState sampleForm rfl
      (by decide) (by decide)).1 (by decide) (by decide)).1.trans (by decide)⟩

/-- C5 (as amended): on a trigger click inside a form whose `elements` collection is not
shadowed, the snapshot is a map with one entry per name.  Every control that has a name other
than `__proto__`, is not disabled and is not an unchecked radio button or checkbox has its
name in the snapshot; the name maps to that control's value when no later such control has
the same name and the trigger's own pair does not use it; the trigger's own name and value
are in the snapshot when both are set; every entry of the snapshot is the name and value of
such a control or of the trigger.  A form submitted by the acknowledgement carries the
snapshot's method and target and exactly one hidden field per entry of the snapshot, and it is
submitted when the target is not empty and no entry is named `submit` or `appendChild`. -/
theorem C5_snapshot_last_write_wins (env env' : Env) (s : State) (target button : Element)
    (form : Form) (hbutton : target.closest matchesTrigger = some button)
    (hform : parentFormOf (some button) = some form)
    (hplain : form.namedItems "elements" = []) :
    (clickListener env s target).state.originalFormInputs = captureInputs form button ∧
    (objKeys (captureInputs form button)).Nodup ∧
    (∀ c ∈ form.controls, isCaptured c = true → c.name ≠ "__proto__" →
      ∃ value, objGet (captureInputs form button) c.name = some value) ∧
    (∀ pre c post, form.controls = pre ++ c :: post → isCaptured c = true →
      c.name ≠ "__proto__" → (∀ d ∈ post, isCaptured d = true → d.name ≠ c.name) →
      ¬ (hasOwnPair button = true ∧ button.node.name = c.name) →
      objGet (captureInputs form button) c.name = some c.value) ∧
    (hasOwnPair button = true → button.node.name ≠ "__proto__" →
      objGet (captureInputs form button) button.node.name = some (some button.node.value)) ∧
    (∀ name value, objGet (captureInputs form button) name = some value →
      (∃ c ∈ form.controls, isCaptured c = true ∧ c.name = name ∧ c.value = value) ∨
      (hasOwnPair button = true ∧ button.node.name = name ∧
        value = some button.node.value)) ∧
    (∀ method action fields, Effect.formSubmitted method action fields ∈
        (okButtonListener env' (clickListener env s target).state).2 →
      method = form.readMethod ∧ action = form.readAction ∧
      fields = hiddenInputs (forInOrder (captureInputs form button))) ∧
    (form.readAction ≠ "" → "submit" ∉ objKeys (captureInputs form button) →
      "appendChild" ∉ objKeys (captureInputs form button) →
      (okButtonListener env' (clickListener env s target).state).2 =
        [Effect.popupRemoved,
          Effect.formSubmitted form.readMethod form.readAction
            (hiddenInputs (forInOrder (captureInputs form button)))]) ∧
    (∀ name value,
      (hiddenInputs (forInOrder (captureInputs form button))).count ⟨"hidden", name, value⟩ =
        if (objGet (captureInputs form button) name).map (fun w => w.getD "undefined") =
          some value then 1 else 0) := by
  have helements : form.readElements = form.controls := by
    simp [Form.readElements, hplain]
  have hcap : captureInputs form button =
      if hasOwnPair button = true ∧ button.node.name ≠ "__proto__" then
        objSet (form.controls.foldl captureControl []) button.node.name (some button.node.value)
      else form.controls.foldl captureControl [] := by
    unfold captureInputs hasOwnPair assignInput
    rw [helements]
    by_cases h₁ : button.node.name = "" <;> by_cases h₂ : button.node.value = "" <;>
      by_cases h₃ : button.node.name = "__proto__" <;> simp [h₁, h₂, h₃]
  have hnodup : (objKeys (form.controls.foldl captureControl [])).Nodup :=
    nodup_objKeys_foldl form.controls [] (by simp [objKeys])
  have hallnodup : (objKeys (captureInputs form button)).Nodup := by
    rw [hcap]
    split
    · exact nodup_objKeys_objSet _ _ _ hnodup
    · exact hnodup
  have htrigger := isTriggerClick_of_closest target button hbutton
  obtain ⟨-, hsform, hsaction, hsmethod, hsinputs⟩ := clickListener_capture env s target htrigger
  simp only [captureState, hbutton, hform] at hsform hsaction hsmethod hsinputs
  refine ⟨hsinputs, hallnodup, ?_, ?_, ?_, ?_, ?_, ?_, ?_⟩
  · intro c hc hcapt hname
    have hsome := foldl_captured_isSome form.controls [] c hc hcapt hname
    rw [hcap]
    split
    · exact Option.isSome_iff_exists.mp (objGet_isSome_objSet _ _ _ _ hsome)
    · exact Option.isSome_iff_exists.mp hsome
  · intro pre c post hsplit hcapt hname hpost hown
    have hfold : objGet (form.controls.foldl captureControl []) c.name = some c.value := by
      rw [hsplit, List.foldl_append, List.foldl_cons, foldl_get_unwritten post _ c.name hpost,
        captureControl_eq]
      simp [hcapt, hname, objGet_objSet_same]
    rw [hcap]
    split
    · rename_i hpair
      rw [objGet_objSet_other _ _ _ _ (fun e => hown ⟨hpair.1, e⟩)]
      exact hfold
    · exact hfold
  · intro hpair hname
    rw [hcap]
    simp [hpair, hname, objGet_objSet_same]
  · intro name value hget
    rw [hcap] at hget
    have hsrc : objGet (form.controls.foldl captureControl []) name = some value →
        ∃ c ∈ form.controls, isCaptured c = true ∧ c.name = name ∧ c.value = value := by
      intro h
      rcases foldl_get_source form.controls [] name value h with h' | h'
      · simp [objGet] at h'
      · exact h'
    split at hget
    · rename_i hpair
      by_cases hk : button.node.name = name
      · rw [← hk, objGet_objSet_same] at hget
        exact Or.inr ⟨hpair.1, hk, (Option.some.inj hget).symm⟩
      · rw [objGet_objSet_other _ _ _ _ hk] at hget
        exact Or.inl (hsrc hget)
    · exact Or.inl (hsrc hget)
  · intro method action fields hmem
    have h := okButtonListener_formSubmitted env' _ method action fields hmem
    rw [hsaction, hsmethod, hsinputs] at h
    exact h
  · intro haction hsubmit happend
    rw [okButtonListener_of_plain_keys env' _ form hsform (by rw [hsaction]; exact haction)
      (by rw [hsinputs]; exact hsubmit) (by rw [hsinputs]; exact happend)]
    simp only [hsaction, hsmethod, hsinputs]
  · exact count_hiddenInputs_forInOrder _ hallnodup

/-- Witness of C5 on the sample form: the trigger's own pair is in the snapshot. -/
theorem C5_snapshot_last_write_wins_witness :
    sampleFormButton.closest matchesTrigger = some sampleFormButton ∧
    parentFormOf (some sampleFormButton) = some sampleForm ∧
    sampleForm.namedItems "elements" = [] ∧
    hasOwnPair sampleFormButton = true ∧
    objGet (captureInputs sampleForm sampleFormButton) "submit.buy-now" =
      some (some "Buy Now") :=
  ⟨by decide, by decide, by decide, by decide,
    (C5_snapshot_last_write_wins sampleEnv sampleEnv initialState sampleFormButton
      sampleFormButton sampleForm (by decide) (by decide) (by decide)).2.2.2.2.1 (by decide)
      (by decide)⟩

/-- C5 as stated fails: with two checked checkboxes of the same name the first one has a name,
is enabled and is checked, yet its name/value pair is not in the snapshot taken by the click
listener, which keeps only the later value, and the form the acknowledgement submits does
not carry it either. -/
theorem C5_duplicate_name_counterexample :
    sampleFormButton.closest matchesTrigger = some sampleFormButton ∧
    parentFormOf (some sampleFormButton) = some sampleForm ∧
    (sampleCheckboxA ∈ sampleForm.controls ∧ sampleCheckboxA.name = "opt" ∧
      sampleCheckboxA.value = some "a" ∧ sampleCheckboxA.disabled = false ∧
      sampleCheckboxA.checked = true ∧
      ("opt", some "a") ∉
        (clickListener sampleEnv initialState sampleFormButton).state.originalFormInputs) ∧
    (clickListener sampleEnv initialState sampleFormButton).state.originalFormInputs =
      [("opt", some "b"), ("submit.buy-now", some "Buy Now")] ∧
    (okButtonListener sampleEnv
      (clickListener sampleEnv initialState sampleFormButton).state).2 =
      [Effect.popupRemoved,
        Effect.formSubmitted "post" "https://www.amazon.in/checkout"
          [⟨"hidden", "opt", "b"⟩, ⟨"hidden", "submit.buy-now", "Buy Now"⟩]] := by
  refine ⟨by decide, by decide, ⟨by decide, rfl, rfl, rfl, rfl, by decide⟩, by decide, by decide⟩

/-! ## The trigger without a form -/

theorem closestChain_self (p : Node → Bool) (l : List Node) (e : Element)
    (h : closestChain p l = some e) : closestChain p (e.node :: e.ancestors) = some e := by
  induction l with
  | nil => simp [closestChain] at h
  | cons n rest ih =>
    by_cases hn : p n = true
    · simp only [closestChain, hn, if_true, Option.some.injEq] at h
      subst h
      simp [closestChain, hn]
    · simp only [closestChain, hn] at h
      exact ih h

theorem closest_self (target button : Element)
    (h : target.closest matchesTrigger = some button) :
    button.closest matchesTrigger = some button :=
  closestChain_self matchesTrigger _ button h

theorem captureState_noForm (s : State) (target button : Element)
    (hbutton : target.closest matchesTrigger = some button)
    (hnoform : parentFormOf (some button) = none) :
    captureState s target =
      { s with
        originalBuyNowButton := some button
        originalForm := none
        originalFormAction := ""
        originalFormMethod := ""
        originalFormInputs := [] } := by
  simp only [captureState, hbutton, hnoform]

theorem clickListener_highValue (env : Env) (s : State) (target : Element) (r : ProductRecord)
    (htrigger : isTriggerClick target = true)
    (hex : (extractProductData env s.storage).1 = some r) (hhv : r.isHighValue = true) :
    clickListener env s target =
      { state :=
          { captureState s target with
            storage := (extractProductData env s.storage).2
            popup := some (shownPrice r.price) }
        effects := Effect.sendMessage "sendProductData" r ::
          ((if s.popup.isSome then [Effect.popupRemoved] else []) ++
            [Effect.popupShown (shownPrice r.price)])
        defaultPrevented := true
        propagationStopped := true } := by
  unfold clickListener
  simp only [htrigger, if_true, captureState_storage, hex, hhv, showInPageNotification,
    captureState_popup]

theorem extractProductData_highValue_again (env : Env) (storage storage' : JSObj)
    (r : ProductRecord) (hex : (extractProductData env storage).1 = some r)
    (hhv : r.isHighValue = true) :
    ∃ r', (extractProductData env storage').1 = some r' ∧ r'.isHighValue = true := by
  have h := extractProductData_highValue_storage env storage storage'
  rw [hex] at h
  cases hex' : (extractProductData env storage').1 with
  | none => simp [hex'] at h
  | some r' =>
    rw [hex'] at h
    simp only [Option.map_some', Option.some.injEq] at h
    exact ⟨r', rfl, by rw [← h, hhv]⟩

theorem okButtonListener_noForm (env : Env) (s : State) (target button : Element)
    (r : ProductRecord) (hbutton : target.closest matchesTrigger = some button)
    (hnoform : parentFormOf (some button) = none)
    (hex : (extractProductData env s.storage).1 = some r) (hhv : r.isHighValue = true) :
    ∃ r', r'.isHighValue = true ∧
      okButtonListener env (clickListener env s target).state =
        ({ s with
            originalBuyNowButton := none
            originalForm := none
            originalFormAction := ""
            originalFormMethod := ""
            originalFormInputs := []
            storage := (extractProductData env (extractProductData env s.storage).2).2
            popup := some (shownPrice r'.price) },
          [Effect.popupRemoved, Effect.buttonClicked button true true,
            Effect.sendMessage "sendProductData" r',
            Effect.popupShown (shownPrice r'.price)]) := by
  obtain ⟨r', hex', hhv'⟩ :=
    extractProductData_highValue_again env s.storage (extractProductData env s.storage).2 r hex hhv
  have hself := closest_self target button hbutton
  have hfirst := clickListener_highValue env s target r
    (isTriggerClick_of_closest target button hbutton) hex hhv
  rw [captureState_noForm s target button hbutton hnoform] at hfirst
  have hsecond := clickListener_highValue env
    { s with
      originalBuyNowButton := some button
      originalForm := none
      originalFormAction := ""
      originalFormMethod := ""
      originalFormInputs := []
      storage := (extractProductData env s.storage).2
      popup := none }
    button r' (isTriggerClick_of_closest button button hself) hex' hhv'
  rw [captureState_noForm _ button button hself hnoform] at hsecond
  refine ⟨r', hhv', ?_⟩
  rw [hfirst]
  simp only [okButtonListener, buttonClick, clearCapture]
  simp [hsecond]

/-- C10: on a page whose extraction yields a high-value record, for a trigger without an
enclosing form, the click re-issued by the first acknowledgement goes through the same
capturing listener, which suppresses it again and shows the modal again; the acknowledgement
then clears the whole capture state, so a second acknowledgement neither submits a form nor
clicks the trigger and ends in the branch that reports that nothing can be resumed. -/
theorem C10_reissued_click_suppressed_then_state_cleared (env : Env) (s : State)
    (target button : Element) (r : ProductRecord)
    (hbutton : target.closest matchesTrigger = some button)
    (hnoform : parentFormOf (some button) = none)
    (hex : (extractProductData env s.storage).1 = some r) (hhv : r.isHighValue = true) :
    ∃ r', r'.isHighValue = true ∧
      (okButtonListener env (clickListener env s target).state).2 =
        [Effect.popupRemoved, Effect.buttonClicked button true true,
          Effect.sendMessage "sendProductData" r', Effect.popupShown (shownPrice r'.price)] ∧
      (okButtonListener env (clickListener env s target).state).1.popup =
        some (shownPrice r'.price) ∧
      (okButtonListener env (clickListener env s target).state).1.originalBuyNowButton = none ∧
      (okButtonListener env (clickListener env s target).state).1.originalForm = none ∧
      (okButtonListener env (clickListener env s target).state).1.originalFormAction = "" ∧
      (okButtonListener env (clickListener env s target).state).1.originalFormMethod = "" ∧
      (okButtonListener env (clickListener env s target).state).1.originalFormInputs = [] ∧
      (okButtonListener env (okButtonListener env (clickListener env s target).state).1).2 =
        [Effect.popupRemoved, Effect.replayError] := by
  obtain ⟨r', hhv', hack⟩ := okButtonListener_noForm env s target button r hbutton hnoform hex hhv
  refine ⟨r', hhv', ?_⟩
  rw [hack]
  simp [okButtonListener, clearCapture]

/-- Witness of C10: the buy-now input outside any form on the sample page. -/
theorem C10_reissued_click_suppressed_then_state_cleared_witness :
    sampleButton.closest matchesTrigger = some sampleButton ∧
    parentFormOf (some sampleButton) = none ∧
    (extractProductData sampleEnv initialState.storage).1 = some sampleRecord ∧
    ∃ r', r'.isHighValue = true ∧
      (okButtonListener sampleEnv (clickListener sampleEnv initialState sampleButton).state).2 =
        [Effect.popupRemoved, Effect.buttonClicked sampleButton true true,
          Effect.sendMessage "sendProductData" r', Effect.popupShown (shownPrice r'.price)] :=
  ⟨by decide, by decide, by decide,
    (C10_reissued_click_suppressed_then_state_cleared sampleEnv initialState sampleButton
      sampleButton sampleRecord (by decide) (by decide) (by decide) rfl).imp
      fun _ h => ⟨h.1, h.2.1⟩⟩

/-- C4 (evaluation of the code): after a high-value click on a trigger that has no enclosing
form, acknowledging the modal calls `click()` on the trigger once and submits no form, but
that click is caught by the capturing listener, which cancels it, stops its propagation and
shows the modal again: the trace holds no native activation of any element. -/
theorem C4_reissued_click_never_activates (env : Env) (s : State) (target button : Element)
    (r : ProductRecord) (hbutton : target.closest matchesTrigger = some button)
    (hnoform : parentFormOf (some button) = none)
    (hex : (extractProductData env s.storage).1 = some r) (hhv : r.isHighValue = true) :
    (∃ r', (okButtonListener env (clickListener env s target).state).2 =
      [Effect.popupRemoved, Effect.buttonClicked button true true,
        Effect.sendMessage "sendProductData" r', Effect.popupShown (shownPrice r'.price)]) ∧
    (∀ b, Effect.nativeActivation b ∉ (okButtonListener env (clickListener env s target).state).2) ∧
    (∀ method action fields, Effect.formSubmitted method action fields ∉
      (okButtonListener env (clickListener env s target).state).2) ∧
    (okButtonListener env (clickListener env s target).state).1.popup.isSome = true := by
  obtain ⟨r', -, hack⟩ := okButtonListener_noForm env s target button r hbutton hnoform hex hhv
  rw [hack]
  exact ⟨⟨r', rfl⟩, by simp, by simp, by simp⟩

/-- Evaluation of C4 on the sample page: the buy-now input outside any form is clicked once by
the acknowledgement and never activated. -/
theorem C4_reissued_click_never_activates_witness :
    sampleButton.closest matchesTrigger = some sampleButton ∧
    parentFormOf (some sampleButton) = none ∧
    (extractProductData sampleEnv initialState.storage).1 = some sampleRecord ∧
    (okButtonListener sampleEnv (clickListener sampleEnv initialState sampleButton).state).2 =
      [Effect.popupRemoved, Effect.buttonClicked sampleButton true true,
        Effect.sendMessage "sendProductData" sampleRecord,
        Effect.popupShown (some (JSNum.fin 20000))] ∧
    Effect.nativeActivation sampleButton ∉
      (okButtonListener sampleEnv (clickListener sampleEnv initialState sampleButton).state).2 :=
  ⟨by decide, by decide, by decide, by decide,
    (C4_reissued_click_never_activates sampleEnv initialState sampleButton sampleButton
      sampleRecord (by decide) (by decide) (by decide) rfl).2.1 sampleButton⟩

/-- Witness of C1: a click on the buy-now input of the sample page is suppressed. -/
theorem C1_click_suppressed_iff_high_value_witness :
    isTriggerClick sampleButton = true ∧
    (clickListener sampleEnv initialState sampleButton).defaultPrevented = true :=
  ⟨by decide,
    ((C1_click_suppressed_iff_high_value sampleEnv initialState sampleButton (by decide)).1.mpr
      ⟨sampleRecord, by decide, rfl⟩).1⟩

end Aura
